import Mathlib

/-!
Shallow embedding of the session-lifecycle core of the carelum backend
(`backend/app/routes/sessions.py` and `backend/app/utils/auth.py`).

Database rows are modelled as explicit structures, timestamps handed to the
handlers as parameters (the code calls `datetime.utcnow()` at the moment of
the update), and the row-store itself as a list of rows passed in.  Python
truthiness on optional strings and numbers is modelled explicitly.
-/

/-- An application-level error as raised via `AppError(code=..., status_code=...)`
or `HTTPException(status_code=..., detail={code...})` in the source. -/
structure AppErr where
  code : String
  status_code : Nat
deriving DecidableEq

/-- `CurrentUser` from `app/utils/auth.py`. -/
structure CurrentUser where
  id : String
  email : String
  role : String
deriving DecidableEq

/-- The `location` column: either a value that parses as a JSON object
(whose optional string field `city` is retained), or a freeform string that
does not parse as a JSON object.  A `jsonDict` with `city = none` also covers
objects without a `city` key and empty objects. -/
inductive LocationVal
  | jsonDict (city : Option String)
  | freeform (s : String)
deriving DecidableEq

/-- The `expires_at` column as consumed by discovery: either an ISO string
that `datetime.fromisoformat` parses (modelled by its epoch instant), or an
unparsable string (included anyway by the code). -/
inductive ExpiresVal
  | parsed (t : Int)
  | unparsable
deriving DecidableEq

/-- A row of the `sessions` table, with the columns the handlers read/write.
`start_time` is modelled by its epoch instant (the store orders by it);
written timestamp columns keep the ISO strings the code stores. -/
structure SessionRow where
  id : String
  parent_id : String
  sitter_id : Option String
  child_id : String
  status : String
  start_time : Nat
  end_time : Option String
  location : Option LocationVal
  hourly_rate : Option ℚ
  total_amount : Option ℚ
  notes : Option String
  search_scope : Option String
  max_distance_km : Option ℚ
  expires_at : Option ExpiresVal
  cancelled_at : Option String
  cancelled_by : Option String
  cancellation_reason : Option String
  completed_at : Option String
  updated_at : String
deriving DecidableEq

/-- `UpdateSessionRequest` from `sessions.py`. -/
structure UpdateReq where
  status : Option String
  endTime : Option String
  location : Option LocationVal
  hourlyRate : Option ℚ
  totalAmount : Option ℚ
  notes : Option String
  cancellationReason : Option String
deriving DecidableEq

/-- Python truthiness of an optional string (`None` and `""` are falsy). -/
def pyTruthyStr : Option String → Bool
  | none => false
  | some s => s ≠ ""

/-- Python truthiness of an optional number (`None` and `0` are falsy). -/
def pyTruthyRat : Option ℚ → Bool
  | none => false
  | some q => q ≠ 0

/-- The `valid_transitions` dict in `validate_status_transition`, including
the `.get(current_status, [])` default for unknown statuses. -/
def valid_transitions (current_status : String) : List String :=
  if current_status = "requested" then ["accepted", "cancelled"]
  else if current_status = "accepted" then ["active", "cancelled"]
  else if current_status = "active" then ["completed", "cancelled"]
  else if current_status = "completed" then []
  else if current_status = "cancelled" then []
  else if current_status = "pending" then ["accepted", "cancelled"]
  else []

/-- `validate_status_transition(current_status, new_status, user_role, session_data)`
from `sessions.py` lines 140-188.  `scope`, `sid` and `cuid` are the values of
`session_data.get('search_scope')`, `session_data.get('sitter_id')` and
`session_data.get('current_user_id')`.  Returns `(is_valid, error_message)`. -/
def validate_status_transition (current_status new_status user_role : String)
    (scope sid cuid : Option String) : Bool × String :=
  if current_status = "completed" ∨ current_status = "cancelled" then
    (false, "Cannot change status from " ++ current_status ++ " (terminal state)")
  else if new_status ∉ valid_transitions current_status then
    (false, "Invalid status transition from " ++ current_status ++ " to " ++ new_status)
  else if new_status = "accepted" ∧ user_role ≠ "sitter" then
    (false, "Only sitters can accept session requests")
  else if new_status = "accepted" ∧ scope = some "invite" ∧ sid ≠ cuid then
    (false, "This session was not invited to you")
  else if new_status = "active" ∧ user_role ≠ "sitter" then
    (false, "Only sitters can start sessions")
  else if new_status = "active" ∧ current_status ≠ "accepted" then
    (false, "Session must be accepted before it can be started")
  else if new_status = "completed" ∧ user_role ≠ "sitter" then
    (false, "Only sitters can complete sessions")
  else if new_status = "completed" ∧ current_status ≠ "active" then
    (false, "Session must be active before it can be completed")
  else (true, "")

/-- `verify_session_access(session_data, user)` from `sessions.py`. -/
def verify_session_access (s : SessionRow) (u : CurrentUser) : Bool :=
  u.role = "admin" ∨ s.parent_id = u.id ∨ s.sitter_id = some u.id

/-- The status-specific part of the `update_data` construction of
`update_session` (lines 617-639): status write plus per-status stamping. -/
def apply_status_update (s : SessionRow) (upd : UpdateReq) (u : CurrentUser)
    (now : String) : SessionRow :=
  match upd.status with
  | none => s
  | some st =>
    let sb := { s with status := st }
    if st = "accepted" then
      (if u.role = "sitter" ∧ ¬ pyTruthyStr s.sitter_id then
        { sb with sitter_id := some u.id } else sb)
    else if st = "cancelled" then
      { sb with cancelled_at := some now, cancelled_by := some u.role,
                cancellation_reason :=
                  if pyTruthyStr upd.cancellationReason then upd.cancellationReason
                  else s.cancellation_reason }
    else if st = "completed" then
      let sc := { sb with completed_at := some now }
      (if ¬ pyTruthyStr upd.endTime then { sc with end_time := some now } else sc)
    else if st = "active" then
      (if u.role = "sitter" ∧ ¬ pyTruthyStr s.sitter_id then
        { sb with sitter_id := some u.id } else sb)
    else sb

/-- The status-independent part of the `update_data` construction (lines
641-653): plain field updates (note an explicit `endTime` overwrites any
`end_time` the `completed` branch stamped) and `updated_at`. -/
def apply_plain_updates (s : SessionRow) (upd : UpdateReq) (now : String) : SessionRow :=
  let s2 := match upd.endTime with
    | some e => { s with end_time := some e }
    | none => s
  let s3 := match upd.location with
    | some l => { s2 with location := some l }
    | none => s2
  let s4 := match upd.hourlyRate with
    | some h => { s3 with hourly_rate := some h }
    | none => s3
  let s5 := match upd.totalAmount with
    | some t => { s4 with total_amount := some t }
    | none => s4
  let s6 := match upd.notes with
    | some n => { s5 with notes := some n }
    | none => s5
  { s6 with updated_at := now }

/-- The full `update_data` construction of `update_session` (lines 615-653)
applied to the stored row. -/
def apply_update (s : SessionRow) (upd : UpdateReq) (u : CurrentUser) (now : String) :
    SessionRow :=
  apply_plain_updates (apply_status_update s upd u now) upd now

/-- `update_session` endpoint (`PUT /sessions/...`, lines 557-670): access check,
transition validation only when the requested status differs from the current
one, then the update.  The stored row (assuming the row exists and the store
write succeeds) is returned. -/
def update_session (s : SessionRow) (upd : UpdateReq) (u : CurrentUser) (now : String) :
    Except AppErr SessionRow :=
  if ¬ verify_session_access s u then
    .error ⟨"FORBIDDEN", 403⟩
  else
    match upd.status with
    | some st =>
      if st ≠ s.status ∧
          ¬ (validate_status_transition s.status st u.role s.search_scope s.sitter_id
              (some u.id)).1 then
        .error ⟨"INVALID_STATUS_TRANSITION", 400⟩
      else
        .ok (apply_update s upd u now)
    | none => .ok (apply_update s upd u now)

/-- `cancel_session` endpoint (`DELETE /sessions/...`, lines 673-752): access
check, terminal-status check, then the cancellation write. -/
def cancel_session (s : SessionRow) (u : CurrentUser) (reason : Option String)
    (now : String) : Except AppErr SessionRow :=
  if ¬ verify_session_access s u then
    .error ⟨"FORBIDDEN", 403⟩
  else if s.status = "completed" ∨ s.status = "cancelled" then
    .error ⟨"INVALID_STATUS", 400⟩
  else
    .ok { s with status := "cancelled", cancelled_at := some now,
                 cancelled_by := some u.role,
                 cancellation_reason := if pyTruthyStr reason then reason
                    else s.cancellation_reason,
                 updated_at := now }

/-- The city parsed from a session's `location` value in discovery
(lines 858-869): only a JSON-object `city` field is ever extracted;
a falsy location or a freeform string yields no city. -/
def session_city_of : Option LocationVal → Option String
  | some (LocationVal.jsonDict c) => c
  | some (LocationVal.freeform _) => none
  | none => none

/-- The expiry skip in the discovery loop (lines 838-845): a session is
skipped exactly when `expires_at` is present, parses, and is in the past. -/
def is_expired (now : Int) (r : SessionRow) : Bool :=
  match r.expires_at with
  | some (ExpiresVal.parsed t) => t < now
  | some ExpiresVal.unparsable => false
  | none => false

/-- Python's `str.lower()` as used by the city comparison, modelled
per character. -/
def strLower (s : String) : String := String.mk (s.data.map Char.toLower)

/-- The city-mismatch skip in the discovery loop (lines 856-873): applies only
when the row has `city` scope and a sitter city is truthy; skips only when the
parsed session city is truthy and differs case-insensitively. -/
def city_skip (sitter_city : Option String) (r : SessionRow) : Bool :=
  if r.search_scope = some "city" ∧ pyTruthyStr sitter_city then
    match session_city_of r.location, sitter_city with
    | some c, some sc => c ≠ "" ∧ strLower c ≠ strLower sc
    | _, _ => false
  else false

/-- The store-side predicate of the discovery query (lines 806-820):
`status = 'requested'`, optional `search_scope` equality, and for `nearby`
scope with a truthy `max_distance` the SQL `max_distance_km <= max_distance`
(null `max_distance_km` rows do not satisfy the comparison). -/
def row_matches_db (scope : Option String) (max_distance : Option ℚ) (r : SessionRow) :
    Bool :=
  decide (r.status = "requested") &&
  (match scope with
   | some sc => decide (r.search_scope = some sc)
   | none => true) &&
  (if scope = some "nearby" ∧ pyTruthyRat max_distance then
    match r.max_distance_km, max_distance with
    | some m, some d => decide (m ≤ d)
    | _, _ => false
   else true)

/-- The ordering used by `query.order("start_time", desc=False)`. -/
def startLe (a b : SessionRow) : Prop := a.start_time ≤ b.start_time

instance : DecidableRel startLe := fun a b => Nat.decLe a.start_time b.start_time

instance : IsTotal SessionRow startLe := ⟨fun a b => Nat.le_total a.start_time b.start_time⟩

instance : IsTrans SessionRow startLe :=
  ⟨fun _ _ _ h1 h2 => Nat.le_trans h1 h2⟩

/-- The store round trip of discovery (lines 804-826): filter, order by
ascending `start_time`, `limit(200)`. -/
def db_discover_query (table : List SessionRow) (scope : Option String)
    (max_distance : Option ℚ) : List SessionRow :=
  ((table.filter (row_matches_db scope max_distance)).insertionSort startLe).take 200

/-- The Python loop of discovery (lines 836-876), splitting the fetched rows
into the pinned invite matches and the other visible matches, preserving the
fetched order within each part. -/
def discover_classify (uid : String) (sitter_city : Option String) (now : Int) :
    List SessionRow → List SessionRow × List SessionRow
  | [] => ([], [])
  | r :: rest =>
    let p := discover_classify uid sitter_city now rest
    if is_expired now r then p
    else if r.search_scope = some "invite" then
      (if r.sitter_id = some uid then (r :: p.1, p.2) else p)
    else if city_skip sitter_city r then p
    else (p.1, r :: p.2)

/-- Resolution of the sitter city (lines 793-802): a truthy `sitter_city`
query parameter wins; otherwise, for `city` scope, the city of the sitter's
profile row (modelled by `profile_city`; a failed profile fetch is
`profile_city = none`) is used. -/
def effective_sitter_city (scope : Option String)
    (sitter_city_param profile_city : Option String) : Option String :=
  if pyTruthyStr sitter_city_param then sitter_city_param
  else if scope = some "city" then profile_city
  else sitter_city_param

/-- `discover_available_sessions` endpoint (`GET /sessions/discover/available`,
lines 755-885): sitter-role gate, scope validation, store query, Python
filtering with invite pinning, and the final cap of 100. -/
def discover_available_sessions (u : CurrentUser) (scope : Option String)
    (max_distance : Option ℚ) (sitter_city_param profile_city : Option String)
    (now : Int) (table : List SessionRow) : Except AppErr (List SessionRow) :=
  if u.role ≠ "sitter" then
    .error ⟨"FORBIDDEN", 403⟩
  else if (match scope with
           | some sc => decide (sc ∉ ["invite", "nearby", "city", "nationwide"])
           | none => false) then
    .error ⟨"INVALID_SCOPE", 400⟩
  else
    let rows := db_discover_query table scope max_distance
    let p := discover_classify u.id (effective_sitter_city scope sitter_city_param
      profile_city) now rows
    .ok ((p.1 ++ p.2).take 100)

/-- The decoded JWT payload as read by `verify_token` (`app/utils/auth.py`):
`sub`, `email`, `exp`, and the `role` fields of `user_metadata` and
`app_metadata`. -/
structure TokenPayload where
  sub : Option String
  email : Option String
  exp : Option Int
  user_metadata_role : Option String
  app_metadata_role : Option String
deriving DecidableEq

/-- Outcome of the unverified `jwt.decode` (lines 77-103). -/
inductive DecodeOutcome
  | ok (p : TokenPayload)
  | malformed
deriving DecidableEq

/-- Outcome of `supabase.auth.get_user(token)` (lines 131-152): a user object,
a response whose `user` is absent, or an exception. -/
inductive ProviderOutcome
  | okUser (id : String) (email : Option String)
  | okNoUser
  | exnFallback
deriving DecidableEq

/-- Outcome of the profile-row role lookup (lines 154-193): some query found a
row (whose `role` column may be null), or every path left the user not found
(missing row, access-control block, or query exception). -/
inductive LookupOutcome
  | found (role : Option String)
  | noProfile
deriving DecidableEq

/-- Outcome of the `create_user_profile` RPC (lines 196-258). -/
inductive CreateOutcome
  | ok
  | exnFallback
deriving DecidableEq

/-- Outcome of the role re-read after auto-provisioning (lines 229-254). -/
inductive ReadAfterOutcome
  | found (role : Option String)
  | noData
  | exnFallback
deriving DecidableEq

/-- Python `a or b` on two optional strings (used for the metadata role). -/
def pyOrOpt (a b : Option String) : Option String :=
  if pyTruthyStr a then a else b

/-- The legacy-alias normalization (lines 207-210). -/
def normalize_role (r : Option String) : Option String :=
  if r = some "babysitter" then some "sitter" else r

/-- Python `x or "parent"` applied to the resolved role (line 264 and the
fallbacks): a falsy role degrades to the default role. -/
def finalRole : Option String → String
  | none => "parent"
  | some s => if s = "" then "parent" else s

/-- Python `user.email or email or ""` (line 146) given the decoded email. -/
def provider_email (vem : Option String) (decoded : String) : String :=
  match vem with
  | some s => if s = "" then decoded else s
  | none => decoded

/-- The role value held in the `role` variable when `verify_token` reaches its
final return (steps 3-4, lines 154-258). -/
def verify_token_role (p : TokenPayload) (lookup : LookupOutcome)
    (create : CreateOutcome) (readAfter : ReadAfterOutcome) : Option String :=
  match lookup with
  | .found r => r
  | .noProfile =>
    let user_role := normalize_role (pyOrOpt p.user_metadata_role p.app_metadata_role)
    match create with
    | .exnFallback => some "parent"
    | .ok =>
      match readAfter with
      | .found r => r
      | .noData => none
      | .exnFallback => if pyTruthyStr user_role then user_role else some "parent"

/-- `verify_token` from `app/utils/auth.py` (lines 38-304), with the outcomes
of the external calls (identity provider, role lookup, auto-provisioning RPC,
post-create re-read) as explicit parameters.  `now` is the clock read by the
manual expiry check. -/
def verify_token (decode : DecodeOutcome) (now : Int) (provider : ProviderOutcome)
    (lookup : LookupOutcome) (create : CreateOutcome) (readAfter : ReadAfterOutcome) :
    Except AppErr CurrentUser :=
  match decode with
  | .malformed => .error ⟨"INVALID_TOKEN", 401⟩
  | .ok p =>
    match p.sub with
    | none => .error ⟨"INVALID_TOKEN", 401⟩
    | some uid0 =>
      let email0 := p.email.getD ""
      if (match p.exp with
          | some e => decide (e ≠ 0 ∧ e < now)
          | none => false) then
        .error ⟨"TOKEN_EXPIRED", 401⟩
      else
        match provider with
        | .okNoUser => .error ⟨"UNAUTHORIZED", 401⟩
        | .okUser vid vem =>
          .ok ⟨vid, provider_email vem email0,
               finalRole (verify_token_role p lookup create readAfter)⟩
        | .exnFallback =>
          .ok ⟨uid0, email0, finalRole (verify_token_role p lookup create readAfter)⟩

/-! ### Helper lemmas about the update construction -/

lemma apply_plain_status (s : SessionRow) (upd : UpdateReq) (now : String) :
    (apply_plain_updates s upd now).status = s.status := by
  unfold apply_plain_updates
  cases upd.endTime <;> cases upd.location <;> cases upd.hourlyRate <;>
    cases upd.totalAmount <;> cases upd.notes <;> rfl

lemma apply_plain_sitter (s : SessionRow) (upd : UpdateReq) (now : String) :
    (apply_plain_updates s upd now).sitter_id = s.sitter_id := by
  unfold apply_plain_updates
  cases upd.endTime <;> cases upd.location <;> cases upd.hourlyRate <;>
    cases upd.totalAmount <;> cases upd.notes <;> rfl

lemma apply_plain_completed_at (s : SessionRow) (upd : UpdateReq) (now : String) :
    (apply_plain_updates s upd now).completed_at = s.completed_at := by
  unfold apply_plain_updates
  cases upd.endTime <;> cases upd.location <;> cases upd.hourlyRate <;>
    cases upd.totalAmount <;> cases upd.notes <;> rfl

lemma apply_plain_cancelled_at (s : SessionRow) (upd : UpdateReq) (now : String) :
    (apply_plain_updates s upd now).cancelled_at = s.cancelled_at := by
  unfold apply_plain_updates
  cases upd.endTime <;> cases upd.location <;> cases upd.hourlyRate <;>
    cases upd.totalAmount <;> cases upd.notes <;> rfl

lemma apply_plain_cancelled_by (s : SessionRow) (upd : UpdateReq) (now : String) :
    (apply_plain_updates s upd now).cancelled_by = s.cancelled_by := by
  unfold apply_plain_updates
  cases upd.endTime <;> cases upd.location <;> cases upd.hourlyRate <;>
    cases upd.totalAmount <;> cases upd.notes <;> rfl

lemma apply_plain_end_time (s : SessionRow) (upd : UpdateReq) (now : String) :
    (apply_plain_updates s upd now).end_time =
      (match upd.endTime with | some e => some e | none => s.end_time) := by
  unfold apply_plain_updates
  cases upd.endTime <;> cases upd.location <;> cases upd.hourlyRate <;>
    cases upd.totalAmount <;> cases upd.notes <;> rfl

lemma apply_status_update_status (s : SessionRow) (upd : UpdateReq) (u : CurrentUser)
    (now : String) :
    (apply_status_update s upd u now).status =
      (match upd.status with | some st => st | none => s.status) := by
  unfold apply_status_update
  cases upd.status with
  | none => rfl
  | some st => dsimp only; split_ifs <;> rfl

lemma apply_update_status (s : SessionRow) (upd : UpdateReq) (u : CurrentUser)
    (now : String) :
    (apply_update s upd u now).status =
      (match upd.status with | some st => st | none => s.status) := by
  unfold apply_update
  rw [apply_plain_status, apply_status_update_status]

lemma validate_terminal_false (c s role : String) (scope sid cuid : Option String)
    (h : c = "completed" ∨ c = "cancelled") :
    (validate_status_transition c s role scope sid cuid).1 = false := by
  unfold validate_status_transition
  rcases h with h | h <;> simp [h]

lemma validate_true_mem (c s role : String) (scope sid cuid : Option String)
    (h : (validate_status_transition c s role scope sid cuid).1 = true) :
    s ∈ valid_transitions c := by
  unfold validate_status_transition at h
  split_ifs at h <;> simp_all

/-- C1: a session whose current status is terminal (`completed` or `cancelled`)
rejects every status transition request — the state machine returns invalid,
the update endpoint fails for any different requested status, and the cancel
endpoint fails — so a successful update never moves a session's status outside
the current status's successor set; for every status, a transition is declared
valid only if the new status is in the successor table (`pending` having the
same successors as `requested`). -/
theorem C1_terminal_frozen_and_table_respected :
    (∀ c s role scope sid cuid, (c = "completed" ∨ c = "cancelled") →
        (validate_status_transition c s role scope sid cuid).1 = false) ∧
    (∀ (S : SessionRow) (upd : UpdateReq) (u : CurrentUser) (now : String) st,
        (S.status = "completed" ∨ S.status = "cancelled") →
        upd.status = some st → st ≠ S.status →
        ∃ e, update_session S upd u now = .error e) ∧
    (∀ (S : SessionRow) (u : CurrentUser) (reason : Option String) (now : String),
        (S.status = "completed" ∨ S.status = "cancelled") →
        ∃ e, cancel_session S u reason now = .error e) ∧
    (∀ c s role scope sid cuid,
        (validate_status_transition c s role scope sid cuid).1 = true →
        s ∈ valid_transitions c) ∧
    (valid_transitions "pending" = valid_transitions "requested") ∧
    (∀ (S : SessionRow) (upd : UpdateReq) (u : CurrentUser) (now : String) S',
        update_session S upd u now = .ok S' →
        S'.status = S.status ∨ S'.status ∈ valid_transitions S.status) := by
  refine ⟨validate_terminal_false, ?_, ?_, validate_true_mem, by decide, ?_⟩
  · intro S upd u now st hterm hst hne
    unfold update_session
    by_cases hacc : verify_session_access S u = true
    · have hv := validate_terminal_false S.status st u.role S.search_scope S.sitter_id
        (some u.id) hterm
      simp only [hacc, not_true_eq_false, if_false, hst]
      rw [if_pos ⟨hne, by simp [hv]⟩]
      exact ⟨_, rfl⟩
    · rw [Bool.not_eq_true] at hacc
      refine ⟨⟨"FORBIDDEN", 403⟩, ?_⟩
      simp [hacc]
  · intro S u reason now hterm
    unfold cancel_session
    by_cases hacc : verify_session_access S u = true
    · simp only [hacc, not_true_eq_false, if_false]
      rw [if_pos hterm]
      exact ⟨_, rfl⟩
    · rw [Bool.not_eq_true] at hacc
      refine ⟨⟨"FORBIDDEN", 403⟩, ?_⟩
      simp [hacc]
  · intro S upd u now S' h
    unfold update_session at h
    by_cases hacc : verify_session_access S u = true
    · rw [if_neg (by simp [hacc])] at h
      cases hupd : upd.status with
      | none =>
        rw [hupd] at h
        simp only [Except.ok.injEq] at h
        left
        rw [← h, apply_update_status, hupd]
      | some st =>
        rw [hupd] at h
        dsimp only at h
        by_cases hst : st = S.status
        · rw [if_neg (by simp [hst])] at h
          simp only [Except.ok.injEq] at h
          left
          rw [← h, apply_update_status, hupd, hst]
        · by_cases hv : (validate_status_transition S.status st u.role S.search_scope
            S.sitter_id (some u.id)).1 = true
          · rw [if_neg (by simp [hv])] at h
            simp only [Except.ok.injEq] at h
            right
            rw [← h, apply_update_status, hupd]
            exact validate_true_mem _ _ _ _ _ _ hv
          · rw [if_pos ⟨hst, by simpa using hv⟩] at h
            cases h
    · rw [Bool.not_eq_true] at hacc
      rw [if_pos (by simp [hacc])] at h
      cases h

/-! ### Concrete fixtures used by witnesses and counterexamples -/

def baseRow : SessionRow :=
  { id := "s1", parent_id := "p", sitter_id := some "a", child_id := "c",
    status := "requested", start_time := 1, end_time := none, location := none,
    hourly_rate := none, total_amount := none, notes := none,
    search_scope := some "invite", max_distance_km := none, expires_at := none,
    cancelled_at := none, cancelled_by := none, cancellation_reason := none,
    completed_at := none, updated_at := "t0" }

def uParent : CurrentUser := ⟨"p", "p@x", "parent"⟩
def uSitterA : CurrentUser := ⟨"a", "a@x", "sitter"⟩
def uSitterB : CurrentUser := ⟨"b", "b@x", "sitter"⟩
def uAdmin : CurrentUser := ⟨"adm", "adm@x", "admin"⟩

def emptyUpd : UpdateReq := ⟨none, none, none, none, none, none, none⟩

def updAccept : UpdateReq := { emptyUpd with status := some "accepted" }

/-- C1 witness: concrete terminal sessions reject transitions. -/
theorem C1_witness :
    (validate_status_transition "completed" "accepted" "sitter" none none none).1
      = false ∧
    (∃ e, update_session { baseRow with status := "completed" }
      { emptyUpd with status := some "cancelled" } uAdmin "t1" = .error e) ∧
    (∃ e, cancel_session { baseRow with status := "cancelled" } uAdmin none "t1"
      = .error e) :=
  ⟨C1_terminal_frozen_and_table_respected.1 "completed" "accepted" "sitter"
      none none none (Or.inl rfl),
   C1_terminal_frozen_and_table_respected.2.1 _ _ uAdmin "t1" "cancelled"
      (Or.inl rfl) rfl (by decide),
   C1_terminal_frozen_and_table_respected.2.2.1 _ uAdmin none "t1" (Or.inr rfl)⟩

/-- C3: the decision function lets only a `sitter` move a session into
`accepted`, `active` or `completed` (so those transitions fail for any other
role, in particular `parent`); `active` is accepted only from `accepted` and
`completed` only from `active`; `cancelled` carries no role restriction and is
accepted for every role (hence owner or admin) from every non-terminal state
of the table. -/
lemma validate_sitter_only (c s role : String) (scope sid cuid : Option String)
    (hs : s = "accepted" ∨ s = "active" ∨ s = "completed")
    (hrole : role ≠ "sitter") :
    (validate_status_transition c s role scope sid cuid).1 = false := by
  unfold validate_status_transition
  rcases hs with hs | hs | hs <;> subst hs <;> split_ifs <;> simp_all

lemma validate_active_needs_accepted (c role : String) (scope sid cuid : Option String)
    (h : (validate_status_transition c "active" role scope sid cuid).1 = true) :
    c = "accepted" := by
  unfold validate_status_transition at h
  split_ifs at h <;> simp_all

lemma validate_completed_needs_active (c role : String) (scope sid cuid : Option String)
    (h : (validate_status_transition c "completed" role scope sid cuid).1 = true) :
    c = "active" := by
  unfold validate_status_transition at h
  split_ifs at h <;> simp_all

lemma validate_cancel_any_role (c role : String) (scope sid cuid : Option String)
    (hc : c ∈ ["requested", "accepted", "active", "pending"]) :
    (validate_status_transition c "cancelled" role scope sid cuid).1 = true := by
  fin_cases hc <;> simp [validate_status_transition, valid_transitions]

theorem C3_role_rules :
    (∀ c s role scope sid cuid, (s = "accepted" ∨ s = "active" ∨ s = "completed") →
        role ≠ "sitter" →
        (validate_status_transition c s role scope sid cuid).1 = false) ∧
    (∀ c role scope sid cuid,
        (validate_status_transition c "active" role scope sid cuid).1 = true →
        c = "accepted") ∧
    (∀ c role scope sid cuid,
        (validate_status_transition c "completed" role scope sid cuid).1 = true →
        c = "active") ∧
    (∀ c role scope sid cuid, c ∈ ["requested", "accepted", "active", "pending"] →
        (validate_status_transition c "cancelled" role scope sid cuid).1 = true) :=
  ⟨validate_sitter_only, validate_active_needs_accepted,
   validate_completed_needs_active, validate_cancel_any_role⟩

/-- C3 witness: concrete role-rule checks. -/
theorem C3_witness :
    (validate_status_transition "requested" "accepted" "parent" none none none).1
      = false ∧
    (validate_status_transition "accepted" "cancelled" "parent" none none none).1
      = true :=
  ⟨C3_role_rules.1 "requested" "accepted" "parent" none none none (Or.inl rfl)
      (by decide),
   C3_role_rules.2.2.2 "accepted" "parent" none none none (by decide)⟩

lemma apply_status_sitter_accepted (s : SessionRow) (upd : UpdateReq)
    (u : CurrentUser) (now : String) (hupd : upd.status = some "accepted") :
    (apply_status_update s upd u now).sitter_id =
      if u.role = "sitter" ∧ ¬ pyTruthyStr s.sitter_id then some u.id
      else s.sitter_id := by
  unfold apply_status_update
  rw [hupd]
  dsimp only
  rw [if_pos rfl]
  split_ifs <;> rfl

/-- C2: for a session in status `requested` with `invite` scope and
pre-assigned sitter A, the accept transition attempted by a sitter who is not
A (and not the session's parent) fails with the Forbidden error, while the
same request by sitter A succeeds with `sitter_id` still A and status
`accepted`. -/
theorem C2_invite_accept (S : SessionRow) (A : String) (uB uA : CurrentUser)
    (now : String) (upd : UpdateReq)
    (hS : S.status = "requested") (hscope : S.search_scope = some "invite")
    (hsid : S.sitter_id = some A) (hupd : upd.status = some "accepted") :
    (uB.role = "sitter" → uB.id ≠ A → uB.id ≠ S.parent_id →
      update_session S upd uB now = .error ⟨"FORBIDDEN", 403⟩) ∧
    (uA.role = "sitter" → uA.id = A →
      ∃ S', update_session S upd uA now = .ok S' ∧ S'.sitter_id = some A ∧
        S'.status = "accepted") := by
  constructor
  · intro hrole hne hnp
    have hacc : verify_session_access S uB = false := by
      unfold verify_session_access
      simp only [hrole, hsid]
      simp only [decide_eq_false_iff_not]
      push_neg
      refine ⟨by decide, fun h => hnp h.symm, fun h => hne (by injection h.symm)⟩
    unfold update_session
    rw [if_pos (by simp [hacc])]
  · intro hrole hid
    have hacc : verify_session_access S uA = true := by
      unfold verify_session_access
      simp [hsid, hid]
    have hval : (validate_status_transition S.status "accepted" uA.role
        S.search_scope S.sitter_id (some uA.id)).1 = true := by
      unfold validate_status_transition
      rw [hS, hscope, hsid, hid]
      simp [valid_transitions, hrole]
    refine ⟨apply_update S upd uA now, ?_, ?_, ?_⟩
    · unfold update_session
      rw [if_neg (by simp [hacc]), hupd]
      dsimp only
      rw [if_neg]
      intro hcon
      exact absurd hval (by simpa using hcon.2)
    · unfold apply_update
      rw [apply_plain_sitter, apply_status_sitter_accepted S upd uA now hupd]
      split_ifs with h
      · rw [hid]
      · exact hsid
    · rw [apply_update_status, hupd]

/-- C2 witness: concrete invite session, sitter B rejected, sitter A accepted. -/
theorem C2_witness :
    update_session baseRow updAccept uSitterB "t1" = .error ⟨"FORBIDDEN", 403⟩ ∧
    ∃ S', update_session baseRow updAccept uSitterA "t1" = .ok S' ∧
      S'.sitter_id = some "a" ∧ S'.status = "accepted" := by
  have h := C2_invite_accept baseRow "a" uSitterB uSitterA "t1" updAccept
    rfl rfl rfl rfl
  exact ⟨h.1 rfl (by decide) (by decide), h.2 rfl rfl⟩

lemma apply_status_update_completed_at (s : SessionRow) (upd : UpdateReq)
    (u : CurrentUser) (now : String) (hupd : upd.status = some "completed") :
    (apply_status_update s upd u now).completed_at = some now := by
  unfold apply_status_update
  rw [hupd]
  dsimp only
  rw [if_neg (by decide), if_neg (by decide), if_pos rfl]
  split_ifs <;> rfl

lemma apply_status_update_completed_end (s : SessionRow) (upd : UpdateReq)
    (u : CurrentUser) (now : String) (hupd : upd.status = some "completed")
    (hend : upd.endTime = none) :
    (apply_status_update s upd u now).end_time = some now := by
  unfold apply_status_update
  rw [hupd]
  dsimp only
  rw [if_neg (by decide), if_neg (by decide), if_pos rfl, if_pos (by simp [hend, pyTruthyStr])]

lemma apply_status_update_cancelled_fields (s : SessionRow) (upd : UpdateReq)
    (u : CurrentUser) (now : String) (hupd : upd.status = some "cancelled") :
    (apply_status_update s upd u now).cancelled_at = some now ∧
    (apply_status_update s upd u now).cancelled_by = some u.role := by
  unfold apply_status_update
  rw [hupd]
  dsimp only
  rw [if_neg (by decide), if_pos rfl]
  exact ⟨rfl, rfl⟩

/-- C8: a sitter completing an `active` session gets `completed_at` stamped
with the transition time; with no explicit `endTime` supplied, `end_time` is
stamped with the same transition time, and an explicit `endTime` is stored
instead. -/
theorem C8_complete_stamps (S : SessionRow) (u : CurrentUser) (upd : UpdateReq)
    (now : String) (hS : S.status = "active") (hrole : u.role = "sitter")
    (hsid : S.sitter_id = some u.id) (hupd : upd.status = some "completed") :
    ∃ S', update_session S upd u now = .ok S' ∧ S'.completed_at = some now ∧
      (upd.endTime = none → S'.end_time = some now) ∧
      (∀ e, upd.endTime = some e → S'.end_time = some e) := by
  have hacc : verify_session_access S u = true := by
    unfold verify_session_access
    simp [hsid]
  have hval : (validate_status_transition S.status "completed" u.role
      S.search_scope S.sitter_id (some u.id)).1 = true := by
    rw [hS, hrole]
    simp [validate_status_transition, valid_transitions]
  refine ⟨apply_update S upd u now, ?_, ?_, ?_, ?_⟩
  · unfold update_session
    rw [if_neg (by simp [hacc]), hupd]
    dsimp only
    rw [if_neg]
    intro hcon
    exact absurd hval (by simpa using hcon.2)
  · unfold apply_update
    rw [apply_plain_completed_at, apply_status_update_completed_at S upd u now hupd]
  · intro hend
    unfold apply_update
    rw [apply_plain_end_time, hend, apply_status_update_completed_end S upd u now hupd hend]
  · intro e hend
    unfold apply_update
    rw [apply_plain_end_time, hend]

def updComplete : UpdateReq := { emptyUpd with status := some "completed" }

def updCancel : UpdateReq := { emptyUpd with status := some "cancelled" }

/-- C8 witness: a concrete active session completed with no `endTime`. -/
theorem C8_witness :
    ∃ S', update_session { baseRow with status := "active" } updComplete uSitterA "t1"
        = .ok S' ∧ S'.completed_at = some "t1" ∧ S'.end_time = some "t1" := by
  obtain ⟨S', h1, h2, h3, _⟩ :=
    C8_complete_stamps { baseRow with status := "active" } uSitterA updComplete "t1"
      rfl rfl rfl rfl
  exact ⟨S', h1, h2, h3 rfl⟩

/-- C10: when the requested status equals the current status, transition
validation is skipped and the status-specific stamping still runs: re-sending
`completed` on a completed session overwrites `completed_at` (and `end_time`
when no `endTime` is supplied), and re-sending `cancelled` on a cancelled
session overwrites `cancelled_at` and `cancelled_by`, for any caller with
access. -/
theorem C10_terminal_restamp (S : SessionRow) (u : CurrentUser) (upd : UpdateReq)
    (now : String) (hacc : verify_session_access S u = true) :
    (S.status = "completed" → upd.status = some "completed" → upd.endTime = none →
      ∃ S', update_session S upd u now = .ok S' ∧ S'.status = "completed" ∧
        S'.completed_at = some now ∧ S'.end_time = some now) ∧
    (S.status = "cancelled" → upd.status = some "cancelled" →
      ∃ S', update_session S upd u now = .ok S' ∧ S'.status = "cancelled" ∧
        S'.cancelled_at = some now ∧ S'.cancelled_by = some u.role) := by
  constructor
  · intro hS hupd hend
    refine ⟨apply_update S upd u now, ?_, ?_, ?_, ?_⟩
    · unfold update_session
      rw [if_neg (by simp [hacc]), hupd]
      dsimp only
      rw [if_neg]
      intro hcon
      exact hcon.1 hS.symm
    · rw [apply_update_status, hupd]
    · unfold apply_update
      rw [apply_plain_completed_at, apply_status_update_completed_at S upd u now hupd]
    · unfold apply_update
      rw [apply_plain_end_time, hend,
        apply_status_update_completed_end S upd u now hupd hend]
  · intro hS hupd
    refine ⟨apply_update S upd u now, ?_, ?_, ?_, ?_⟩
    · unfold update_session
      rw [if_neg (by simp [hacc]), hupd]
      dsimp only
      rw [if_neg]
      intro hcon
      exact hcon.1 hS.symm
    · rw [apply_update_status, hupd]
    · unfold apply_update
      rw [apply_plain_cancelled_at,
        (apply_status_update_cancelled_fields S upd u now hupd).1]
    · unfold apply_update
      rw [apply_plain_cancelled_by,
        (apply_status_update_cancelled_fields S upd u now hupd).2]

/-- C10 witness: concrete restamps on terminal sessions. -/
theorem C10_witness :
    (∃ S', update_session { baseRow with status := "completed" } updComplete uSitterA
        "t2" = .ok S' ∧ S'.status = "completed" ∧ S'.completed_at = some "t2" ∧
        S'.end_time = some "t2") ∧
    (∃ S', update_session { baseRow with status := "cancelled" } updCancel uSitterA
        "t2" = .ok S' ∧ S'.status = "cancelled" ∧ S'.cancelled_at = some "t2" ∧
        S'.cancelled_by = some "sitter") :=
  ⟨(C10_terminal_restamp { baseRow with status := "completed" } uSitterA updComplete
      "t2" (by decide)).1 rfl rfl rfl,
   (C10_terminal_restamp { baseRow with status := "cancelled" } uSitterA updCancel
      "t2" (by decide)).2 rfl rfl⟩

/-! ### Discovery lemmas -/

lemma discover_classify_fst_sublist (uid : String) (sc : Option String) (now : Int) :
    ∀ l : List SessionRow, (discover_classify uid sc now l).1.Sublist l := by
  intro l
  induction l with
  | nil => simp [discover_classify]
  | cons a l ih =>
    unfold discover_classify
    dsimp only
    split_ifs with h1 h2 h3 h4
    · exact ih.cons a
    · exact ih.cons₂ a
    · exact ih.cons a
    · exact ih.cons a
    · exact ih.cons a

lemma discover_classify_snd_sublist (uid : String) (sc : Option String) (now : Int) :
    ∀ l : List SessionRow, (discover_classify uid sc now l).2.Sublist l := by
  intro l
  induction l with
  | nil => simp [discover_classify]
  | cons a l ih =>
    unfold discover_classify
    dsimp only
    split_ifs with h1 h2 h3 h4
    · exact ih.cons a
    · exact ih.cons a
    · exact ih.cons a
    · exact ih.cons a
    · exact ih.cons₂ a

lemma mem_discover_classify_fst (uid : String) (sc : Option String) (now : Int)
    (r : SessionRow) :
    ∀ l : List SessionRow, r ∈ (discover_classify uid sc now l).1 →
      r.search_scope = some "invite" ∧ r.sitter_id = some uid ∧
        is_expired now r = false := by
  intro l
  induction l with
  | nil => simp [discover_classify]
  | cons a l ih =>
    unfold discover_classify
    dsimp only
    split_ifs with h1 h2 h3 h4
    · exact ih
    · intro h
      rcases List.mem_cons.1 h with h | h
      · subst h
        exact ⟨h2, h3, by simpa using h1⟩
      · exact ih h
    · exact ih
    · exact ih
    · exact ih

lemma mem_discover_classify_snd (uid : String) (sc : Option String) (now : Int)
    (r : SessionRow) :
    ∀ l : List SessionRow, r ∈ (discover_classify uid sc now l).2 →
      r.search_scope ≠ some "invite" ∧ is_expired now r = false ∧
        city_skip sc r = false := by
  intro l
  induction l with
  | nil => simp [discover_classify]
  | cons a l ih =>
    unfold discover_classify
    dsimp only
    split_ifs with h1 h2 h3 h4
    · exact ih
    · exact ih
    · exact ih
    · exact ih
    · intro h
      rcases List.mem_cons.1 h with h | h
      · subst h
        exact ⟨h2, by simpa using h1, by simpa using h4⟩
      · exact ih h

lemma discover_ok_elim (u : CurrentUser) (scope : Option String) (md : Option ℚ)
    (scp pc : Option String) (now : Int) (table : List SessionRow)
    (out : List SessionRow)
    (h : discover_available_sessions u scope md scp pc now table = .ok out) :
    out = ((discover_classify u.id (effective_sitter_city scope scp pc) now
        (db_discover_query table scope md)).1 ++
      (discover_classify u.id (effective_sitter_city scope scp pc) now
        (db_discover_query table scope md)).2).take 100 := by
  unfold discover_available_sessions at h
  split_ifs at h
  exact (by simpa using h.symm)

lemma mem_db_discover_query (table : List SessionRow) (scope : Option String)
    (md : Option ℚ) (r : SessionRow) (h : r ∈ db_discover_query table scope md) :
    row_matches_db scope md r = true := by
  unfold db_discover_query at h
  have h1 := List.take_subset _ _ h
  rw [List.mem_insertionSort] at h1
  exact List.of_mem_filter h1

lemma mem_discover_matches (u : CurrentUser) (scope : Option String) (md : Option ℚ)
    (scp pc : Option String) (now : Int) (table : List SessionRow)
    (out : List SessionRow)
    (h : discover_available_sessions u scope md scp pc now table = .ok out)
    (r : SessionRow) (hr : r ∈ out) : row_matches_db scope md r = true := by
  rw [discover_ok_elim u scope md scp pc now table out h] at hr
  have hr2 := List.take_subset _ _ hr
  rcases List.mem_append.1 hr2 with h1 | h1
  · exact mem_db_discover_query _ _ _ _
      ((discover_classify_fst_sublist _ _ _ _).subset h1)
  · exact mem_db_discover_query _ _ _ _
      ((discover_classify_snd_sublist _ _ _ _).subset h1)

instance {ε α : Type} [DecidableEq ε] [DecidableEq α] : DecidableEq (Except ε α) :=
  fun a b =>
    match a, b with
    | .error e, .error f => decidable_of_iff (e = f) (by simp)
    | .ok x, .ok y => decidable_of_iff (x = y) (by simp)
    | .error _, .ok _ => isFalse (by simp)
    | .ok _, .error _ => isFalse (by simp)

def rowNearby : SessionRow :=
  { baseRow with search_scope := some "nearby", sitter_id := none,
                 max_distance_km := some 10 }

/-- C4 counterexample: the discovery endpoint takes no sitter coordinates at
all; a `nearby`-scope call (necessarily without coordinates) returns the
matching `nearby` session rather than an empty list. -/
theorem C4_counterexample :
    discover_available_sessions uSitterA (some "nearby") none none none 0 [rowNearby]
      = .ok [rowNearby] ∧ [rowNearby] ≠ ([] : List SessionRow) := by decide

/-- C4 (amended): discovery has no sitter-coordinate input, and with scope
`nearby` it does not return an empty list merely because no coordinates were
supplied; what does hold is that the result is never broadened to other
scopes: every returned session has `search_scope = nearby` and status
`requested`. -/
theorem C4_nearby_never_broadened (u : CurrentUser) (md : Option ℚ)
    (scp pc : Option String) (now : Int) (table out : List SessionRow)
    (h : discover_available_sessions u (some "nearby") md scp pc now table = .ok out) :
    ∀ r ∈ out, r.search_scope = some "nearby" ∧ r.status = "requested" := by
  intro r hr
  have hm := mem_discover_matches u (some "nearby") md scp pc now table out h r hr
  simp only [row_matches_db, Bool.and_eq_true, decide_eq_true_eq] at hm
  exact ⟨hm.1.2, hm.1.1⟩

/-- C4 witness: the amended theorem applied to the concrete nearby call. -/
theorem C4_witness :
    rowNearby.search_scope = some "nearby" ∧ rowNearby.status = "requested" :=
  C4_nearby_never_broadened uSitterA none none none 0 [rowNearby] [rowNearby]
    (by decide) rowNearby (by decide)

def rowNear5 : SessionRow :=
  { baseRow with search_scope := some "nearby", sitter_id := none,
                 max_distance_km := some 5 }

def rowNear25 : SessionRow :=
  { baseRow with search_scope := some "nearby", sitter_id := none,
                 max_distance_km := some 25 }

/-- C5 counterexample: with filter `max_distance = 10`, a session whose own
`max_distance_km` is 5 (not ≥ 10) is visible, while one whose
`max_distance_km` is 25 (≥ 10) is excluded — the code compares with `lte`,
the opposite direction of the claim. -/
theorem C5_counterexample :
    discover_available_sessions uSitterA (some "nearby") (some 10) none none 0 [rowNear5]
      = .ok [rowNear5] ∧
    rowNear5.max_distance_km = some 5 ∧ ¬ ((5 : ℚ) ≥ 10) ∧
    discover_available_sessions uSitterA (some "nearby") (some 10) none none 0 [rowNear25]
      = .ok [] := by decide

/-- C5 (amended): in `nearby` discovery with a non-zero `max_distance` filter,
a session is visible only if its own `max_distance_km` is less than or equal
to the requested filter value; with no filter supplied no radius restriction
is applied (a session of any declared radius is returned). -/
theorem C5_radius_lte (u : CurrentUser) (d : ℚ) (scp pc : Option String) (now : Int)
    (table out : List SessionRow) (hd : d ≠ 0)
    (h : discover_available_sessions u (some "nearby") (some d) scp pc now table
      = .ok out) :
    (∀ r ∈ out, ∃ m, r.max_distance_km = some m ∧ m ≤ d) ∧
    discover_available_sessions uSitterA (some "nearby") none none none 0 [rowNear25]
      = .ok [rowNear25] := by
  constructor
  · intro r hr
    have hm := mem_discover_matches u (some "nearby") (some d) scp pc now table out h
      r hr
    simp only [row_matches_db, Bool.and_eq_true, decide_eq_true_eq] at hm
    have h3 := hm.2
    rw [if_pos ⟨trivial, by simp [pyTruthyRat, hd]⟩] at h3
    rcases hmd : r.max_distance_km with _ | m
    · rw [hmd] at h3
      cases h3
    · rw [hmd] at h3
      exact ⟨m, rfl, by simpa using h3⟩
  · decide

/-- C5 witness: the amended theorem applied to the concrete filtered call. -/
theorem C5_witness :
    (∀ r ∈ [rowNear5], ∃ m, r.max_distance_km = some m ∧ m ≤ (10 : ℚ)) ∧
    discover_available_sessions uSitterA (some "nearby") none none none 0 [rowNear25]
      = .ok [rowNear25] :=
  C5_radius_lte uSitterA 10 none none 0 [rowNear5] [rowNear5] (by decide) (by decide)

lemma discover_city_single (u : CurrentUser) (scq pc : Option String) (now : Int)
    (r : SessionRow) (hrole : u.role = "sitter") (hscope : r.search_scope = some "city")
    (hstat : r.status = "requested") (hexp : is_expired now r = false) :
    discover_available_sessions u (some "city") none scq pc now [r] =
      .ok (if city_skip (effective_sitter_city (some "city") scq pc) r then [] else [r]) := by
  have hcond : row_matches_db (some "city") none r = true := by
    simp [row_matches_db, hstat, hscope]
  have h2 : db_discover_query [r] (some "city") none = [r] := by
    unfold db_discover_query
    rw [List.filter_cons, if_pos hcond]
    rfl
  unfold discover_available_sessions
  rw [if_neg (by simp [hrole]), if_neg (by decide)]
  dsimp only
  rw [h2]
  unfold discover_classify
  dsimp only
  rw [if_neg (by simp [hexp]), if_neg (by simp [hscope])]
  by_cases hcs : city_skip (effective_sitter_city (some "city") scq pc) r = true
  · rw [if_pos hcs, if_pos (by simpa using hcs)]
    rfl
  · rw [if_neg hcs, if_neg (by simpa using hcs)]
    rfl

def rowCityFree : SessionRow :=
  { baseRow with search_scope := some "city", sitter_id := none,
                 location := some (LocationVal.freeform "123 Main Street") }

/-- C9 counterexample: with sitter city "Paris" supplied, a `city`-scope
session whose location yields no parsable city is included in the discovery
result, not skipped. -/
theorem C9_counterexample :
    session_city_of rowCityFree.location = none ∧
    discover_available_sessions uSitterA (some "city") none (some "Paris") none 0
      [rowCityFree] = .ok [rowCityFree] := by decide

/-- C9 (amended): in `city`-scope discovery a candidate is excluded only when
both sides resolve: the session's parsed city is non-empty and differs
case-insensitively from the supplied sitter city.  When the session's
location yields no city, when the parsed city matches case-insensitively, or
when no sitter city is available at all, the session is included — ambiguity
admits the candidate rather than skipping it. -/
theorem C9_city_scope (u : CurrentUser) (sc : String) (pc : Option String) (now : Int)
    (r : SessionRow) (hrole : u.role = "sitter") (hsc : sc ≠ "")
    (hscope : r.search_scope = some "city") (hstat : r.status = "requested")
    (hexp : is_expired now r = false) :
    (session_city_of r.location = none →
      discover_available_sessions u (some "city") none (some sc) pc now [r]
        = .ok [r]) ∧
    (∀ c, session_city_of r.location = some c → c ≠ "" → strLower c ≠ strLower sc →
      discover_available_sessions u (some "city") none (some sc) pc now [r]
        = .ok []) ∧
    (∀ c, session_city_of r.location = some c → strLower c = strLower sc →
      discover_available_sessions u (some "city") none (some sc) pc now [r]
        = .ok [r]) ∧
    (discover_available_sessions u (some "city") none none none now [r]
      = .ok [r]) := by
  have hcity : effective_sitter_city (some "city") (some sc) pc = some sc := by
    simp [effective_sitter_city, pyTruthyStr, hsc]
  refine ⟨?_, ?_, ?_, ?_⟩
  · intro hloc
    rw [discover_city_single u (some sc) pc now r hrole hscope hstat hexp, hcity]
    rw [if_neg]
    simp [city_skip, hloc]
  · intro c hloc hc hne
    rw [discover_city_single u (some sc) pc now r hrole hscope hstat hexp, hcity]
    rw [if_pos]
    simp [city_skip, hloc, hscope, pyTruthyStr, hsc, hc, hne]
  · intro c hloc heq
    rw [discover_city_single u (some sc) pc now r hrole hscope hstat hexp, hcity]
    rw [if_neg]
    simp [city_skip, hloc, heq]
  · rw [discover_city_single u none none now r hrole hscope hstat hexp]
    rw [if_neg]
    simp [city_skip, effective_sitter_city, pyTruthyStr]

def rowCityParis : SessionRow :=
  { baseRow with search_scope := some "city", sitter_id := none,
                 location := some (LocationVal.jsonDict (some "paris")) }

/-- C9 witness: the amended theorem at concrete rows — an unresolvable city is
included, a differing city is excluded, a case-insensitive match is included. -/
theorem C9_witness :
    (discover_available_sessions uSitterA (some "city") none (some "Paris") none 0
      [rowCityFree] = .ok [rowCityFree]) ∧
    (discover_available_sessions uSitterA (some "city") none (some "Lyon") none 0
      [rowCityParis] = .ok []) ∧
    (discover_available_sessions uSitterA (some "city") none (some "Paris") none 0
      [rowCityParis] = .ok [rowCityParis]) :=
  ⟨(C9_city_scope uSitterA "Paris" none 0 rowCityFree rfl (by decide) rfl rfl
      rfl).1 rfl,
   (C9_city_scope uSitterA "Lyon" none 0 rowCityParis rfl (by decide) rfl rfl
      rfl).2.1 "paris" rfl (by decide) (by decide),
   (C9_city_scope uSitterA "Paris" none 0 rowCityParis rfl (by decide) rfl rfl
      rfl).2.2.1 "paris" rfl (by decide)⟩

lemma db_discover_query_sorted (table : List SessionRow) (scope : Option String)
    (md : Option ℚ) : (db_discover_query table scope md).Sorted startLe :=
  List.Pairwise.sublist (List.take_sublist _ _)
    (List.sorted_insertionSort startLe _)

/-- C6 (amended): in any successful discovery result, the invite matches for
the calling sitter form a prefix of the output, every element after them is a
non-invite match, those non-invite matches are ordered by ascending
`start_time`, and the in-memory cap of 100 is applied after the Python
filtering — if any non-invite match made it into the output, every pinned
invite match did too.  (The store fetch itself is still capped at 200 rows
ordered by `start_time` before this filtering, which is why the original
claim's "never crowded out" fails; see the counterexample.) -/
theorem C6_invite_pinning (u : CurrentUser) (scope : Option String) (md : Option ℚ)
    (scp pc : Option String) (now : Int) (table out : List SessionRow)
    (h : discover_available_sessions u scope md scp pc now table = .ok out) :
    ∃ A B, out = A ++ B ∧
      (∀ r ∈ A, r.search_scope = some "invite" ∧ r.sitter_id = some u.id) ∧
      (∀ r ∈ B, r.search_scope ≠ some "invite") ∧
      B.Sorted startLe ∧
      out.length ≤ 100 ∧
      ((∃ r ∈ out, r.search_scope ≠ some "invite") →
        ∀ r ∈ (discover_classify u.id (effective_sitter_city scope scp pc) now
          (db_discover_query table scope md)).1, r ∈ out) := by
  have hout := discover_ok_elim u scope md scp pc now table out h
  refine ⟨(discover_classify u.id (effective_sitter_city scope scp pc) now
      (db_discover_query table scope md)).1.take 100,
    (discover_classify u.id (effective_sitter_city scope scp pc) now
      (db_discover_query table scope md)).2.take
      (100 - (discover_classify u.id (effective_sitter_city scope scp pc) now
        (db_discover_query table scope md)).1.length),
    ?_, ?_, ?_, ?_, ?_, ?_⟩
  · rw [hout, List.take_append_eq_append_take]
  · intro r hr
    have h2 := mem_discover_classify_fst _ _ _ r _ (List.take_subset _ _ hr)
    exact ⟨h2.1, h2.2.1⟩
  · intro r hr
    exact (mem_discover_classify_snd _ _ _ r _ (List.take_subset _ _ hr)).1
  · exact List.Pairwise.sublist (List.take_sublist _ _)
      (List.Pairwise.sublist (discover_classify_snd_sublist _ _ _ _)
        (db_discover_query_sorted table scope md))
  · rw [hout]
    exact List.length_take_le _ _
  · rintro ⟨r, hr, hrs⟩ x hx
    have hr2 : r ∈ (discover_classify u.id (effective_sitter_city scope scp pc) now
        (db_discover_query table scope md)).1.take 100 ++
        (discover_classify u.id (effective_sitter_city scope scp pc) now
        (db_discover_query table scope md)).2.take
        (100 - (discover_classify u.id (effective_sitter_city scope scp pc) now
          (db_discover_query table scope md)).1.length) := by
      rw [← List.take_append_eq_append_take, ← hout]
      exact hr
    rcases List.mem_append.1 hr2 with h1 | h1
    · exact absurd (mem_discover_classify_fst _ _ _ r _
        (List.take_subset _ _ h1)).1 hrs
    · have hlen : (discover_classify u.id (effective_sitter_city scope scp pc) now
          (db_discover_query table scope md)).1.length < 100 := by
        by_contra hle
        push_neg at hle
        rw [Nat.sub_eq_zero_of_le hle] at h1
        simp at h1
      rw [hout, List.take_append_eq_append_take]
      refine List.mem_append.2 (Or.inl ?_)
      rw [List.take_of_length_le (le_of_lt hlen)]
      exact hx

def rowEarly : SessionRow :=
  { baseRow with id := "e", search_scope := some "nationwide", sitter_id := none,
                 start_time := 1 }

def rowLateInvite : SessionRow :=
  { baseRow with id := "i", start_time := 2 }

def bigTable : List SessionRow := List.replicate 200 rowEarly ++ [rowLateInvite]

set_option maxRecDepth 4000 in
/-- C6 counterexample: the store fetch is capped at 200 rows ordered by
ascending `start_time` before any filtering, so an invite match whose
`start_time` lies beyond 200 earlier non-invite rows is crowded out of the
result even though the in-memory cap of 100 runs after filtering. -/
theorem C6_counterexample :
    rowLateInvite.search_scope = some "invite" ∧
    rowLateInvite.sitter_id = some uSitterA.id ∧
    rowLateInvite.status = "requested" ∧
    rowLateInvite.expires_at = none ∧
    rowLateInvite ∈ bigTable ∧
    discover_available_sessions uSitterA none none none none 0 bigTable
      = .ok (List.replicate 100 rowEarly) ∧
    rowLateInvite ∉ List.replicate 100 rowEarly := by decide

/-- C6 witness: the amended theorem applied to a concrete two-row table whose
output pins the invite match ahead of an earlier-starting nearby match. -/
theorem C6_witness :
    ∃ A B, ([baseRow, rowNearby] : List SessionRow) = A ++ B ∧
      (∀ r ∈ A, r.search_scope = some "invite" ∧ r.sitter_id = some uSitterA.id) ∧
      (∀ r ∈ B, r.search_scope ≠ some "invite") ∧
      B.Sorted startLe ∧
      ([baseRow, rowNearby] : List SessionRow).length ≤ 100 ∧
      ((∃ r ∈ ([baseRow, rowNearby] : List SessionRow),
          r.search_scope ≠ some "invite") →
        ∀ r ∈ (discover_classify uSitterA.id (effective_sitter_city none none none) 0
          (db_discover_query [rowNearby, baseRow] none none)).1,
          r ∈ ([baseRow, rowNearby] : List SessionRow)) :=
  C6_invite_pinning uSitterA none none none none 0 [rowNearby, baseRow]
    [baseRow, rowNearby] (by decide)

def payloadGood : TokenPayload := ⟨some "u1", some "u@x", some 99, none, none⟩

/-- C7 counterexample: with a well-formed, unexpired credential, the provider
call succeeding but reporting no user makes `verify_token` raise 401 rather
than return an identity — an outcome of provider verification that throws. -/
theorem C7_counterexample :
    payloadGood.sub = some "u1" ∧ payloadGood.exp = some 99 ∧ ¬ ((99 : Int) < 0) ∧
    verify_token (.ok payloadGood) 0 .okNoUser (.found (some "sitter")) .ok
      (.found (some "sitter")) = .error ⟨"UNAUTHORIZED", 401⟩ := by decide

/-- C7 (amended): once the credential decodes with a subject and is not
expired, identity resolution returns `(subject, email, role)` for every
outcome of the profile-row lookup and auto-provisioning and for every
provider-verification outcome except the provider succeeding while reporting
no user (which raises Unauthorized); when no role can be resolved it degrades
to the default role `parent` instead of surfacing an error. -/
theorem C7_resolution_total (p : TokenPayload) (now : Int)
    (provider : ProviderOutcome) (lookup : LookupOutcome) (create : CreateOutcome)
    (readAfter : ReadAfterOutcome) (uid0 : String) (hsub : p.sub = some uid0)
    (hexp : (match p.exp with
             | some e => decide (e ≠ 0 ∧ e < now)
             | none => false) = false)
    (hprov : provider ≠ .okNoUser) :
    ∃ c : CurrentUser,
      verify_token (.ok p) now provider lookup create readAfter = .ok c ∧
      (lookup = .found none → c.role = "parent") ∧
      ((lookup = .noProfile ∧ create = .exnFallback) → c.role = "parent") := by
  cases provider with
  | okNoUser => exact absurd rfl hprov
  | okUser vid vem =>
    refine ⟨⟨vid, provider_email vem (p.email.getD ""),
        finalRole (verify_token_role p lookup create readAfter)⟩, ?_, ?_, ?_⟩
    · unfold verify_token
      dsimp only
      rw [hsub]
      dsimp only
      rw [if_neg (by rw [hexp]; exact Bool.false_ne_true)]
    · intro hl
      subst hl
      simp [verify_token_role, finalRole]
    · rintro ⟨hl, hc⟩
      subst hl
      subst hc
      simp [verify_token_role, finalRole]
  | exnFallback =>
    refine ⟨⟨uid0, p.email.getD "",
        finalRole (verify_token_role p lookup create readAfter)⟩, ?_, ?_, ?_⟩
    · unfold verify_token
      dsimp only
      rw [hsub]
      dsimp only
      rw [if_neg (by rw [hexp]; exact Bool.false_ne_true)]
    · intro hl
      subst hl
      simp [verify_token_role, finalRole]
    · rintro ⟨hl, hc⟩
      subst hl
      subst hc
      simp [verify_token_role, finalRole]

/-- C7 witness: the amended theorem applied to a concrete token with provider
outage, no profile row and failing auto-provisioning — resolution still
returns an identity with the default role. -/
theorem C7_witness :
    ∃ c : CurrentUser,
      verify_token (.ok payloadGood) 0 .exnFallback .noProfile .exnFallback .noData
        = .ok c ∧
      (LookupOutcome.noProfile = .found none → c.role = "parent") ∧
      ((LookupOutcome.noProfile = .noProfile ∧
        CreateOutcome.exnFallback = .exnFallback) → c.role = "parent") :=
  C7_resolution_total payloadGood 0 .exnFallback .noProfile .exnFallback .noData
    "u1" rfl (by decide) (by decide)
